import Mathlib

set_option maxRecDepth 8000
set_option maxHeartbeats 1000000

/-!
Shallow embedding of the voxelai/parcpak repository.

The repository has two source files:
- src/parcpak/main.py  — the documented variant: `_download_file`, `fetch_schaefer`,
  `fetch_tian`, `fetch_diedrichsen`, `fetch_buckner`, `get_parcellations`, `img2table`;
- src/parcpack/main.py — an undocumented variant of the fetcher half: the same helpers
  without `download_dir` / `overwrite` parameters on the fetchers, and `fetch_parcellations`.

The embedding models the local filesystem cache and the network as an explicit state
`FS` threaded through every function, exactly mirroring the Python control flow:
an exception is an `Except.error` paired with the state at the moment it is raised
(side effects performed before the exception persist, as on a real filesystem).
-/

/-- Characters of the basename: everything after the last slash.
Mirrors `os.path.basename` for the slash-separated URLs used in this repository. -/
def basenameAux : List Char → List Char → List Char
  | [], acc => acc
  | c :: cs, acc => if c = '/' then basenameAux cs [] else basenameAux cs (acc ++ [c])

/-- `os.path.basename` on slash-separated paths/URLs. -/
def basename (s : String) : String := String.mk (basenameAux s.data [])

/-- Whether a string ends with a slash (pure, structural). -/
def endsWithSlash (s : String) : Bool :=
  match s.data.getLast? with
  | some c => c == '/'
  | none => false

/-- `os.path.join` / `pathlib.Path(a, b)` for the shapes used in this repository:
a relative second component is appended with a single separating slash
(`os.path.join` does not duplicate a trailing slash of `a`). -/
def pathJoin (a b : String) : String :=
  if endsWithSlash a then a ++ b else a ++ "/" ++ b

/-- Python exceptions that the modelled code can raise. -/
inductive PyError where
  | typeError (msg : String)
  | transferError (url : String)
  | invalidArgument (msg : String)
  | valueError (msg : String)
deriving DecidableEq

/-- The Python value passed as the `download_dir` argument of `_download_file`.
The annotation in the source is `str | Path | None`, but Python does not check it,
and `get_parcellations` in fact passes a `bool` positionally; the embedding therefore
carries the `bool` case explicitly. -/
inductive DirArg where
  | none
  | str (s : String)
  | bool (b : Bool)
deriving DecidableEq

/-- The external world as the code observes it: the user's home directory, the set of
files present on disk, the set of URLs whose retrieval would fail with a network
error, and the ordered log of network transfers actually performed. -/
structure FS where
  home : String
  files : List String
  failing : List String
  transfers : List String
deriving DecidableEq

/-- A parcellation tuple `(name, path to label image, path to label table)` as
returned by every `fetch_*` function. -/
structure Parc where
  name : String
  parc : String
  table : String
deriving DecidableEq

/-- `PARCPAK_DIR = os.path.expanduser("~/parcpak_data")`, as a function of the
user's home directory. -/
def PARCPAK_DIR (home : String) : String := home ++ "/parcpak_data"

/-- `REPO_URL` from both source files. -/
def REPO_URL : String := "https://github.com/voxelai/parcpak/raw/main/data/"

/-- The `TypeError` that `os.makedirs` raises when handed a `bool` instead of a
path (`os.fspath` rejects anything that is not `str`, `bytes` or `os.PathLike`). -/
def boolDirError : PyError :=
  PyError.typeError "expected str, bytes or os.PathLike object, not bool"

/-- `target_file = Path(download_dir, os.path.basename(url)).resolve()`: the
deterministic local target of a URL under a cache directory (`resolve` is modelled
as the identity on these already-absolute paths). -/
def targetPath (dir url : String) : String := pathJoin dir (basename url)

/-- Body of `_download_file` once the download directory is known to be a string:
compute the target path; if `overwrite` or the target does not exist, retrieve the
URL (recording the transfer, or raising a transfer error for a failing URL);
otherwise skip. Returns the target path. -/
def downloadCore (dir url : String) (overwrite : Bool) (fs : FS) :
    FS × Except PyError String :=
  if overwrite || !(fs.files.contains (targetPath dir url)) then
    if fs.failing.contains url then
      (fs, Except.error (PyError.transferError url))
    else
      ({ fs with
          files := if fs.files.contains (targetPath dir url) then fs.files
                   else targetPath dir url :: fs.files,
          transfers := fs.transfers ++ [url] },
        Except.ok (targetPath dir url))
  else
    (fs, Except.ok (targetPath dir url))

/-- `_download_file(url, download_dir, overwrite)` (identical in both source files).
`os.makedirs(download_dir, exist_ok=True)` runs before anything else, so a `bool`
download directory raises `TypeError` before any transfer is attempted; a `None`
directory falls back to `PARCPAK_DIR`. -/
def download_file (url : String) (download_dir : DirArg) (overwrite : Bool)
    (fs : FS) : FS × Except PyError String :=
  match download_dir with
  | DirArg.none => downloadCore (PARCPAK_DIR fs.home) url overwrite fs
  | DirArg.str s => downloadCore s url overwrite fs
  | DirArg.bool _ => (fs, Except.error boolDirError)

/-- URL of the Schaefer label image (identical in both source files). -/
def schaeferParcUrl (version resolution : Nat) : String :=
  pathJoin (pathJoin REPO_URL "parcellations")
    s!"Schaefer2018_{version}Parcels_7Networks_order_FSLMNI152_{resolution}mm.nii.gz"

/-- URL of the Schaefer label table (identical in both source files). -/
def schaeferTableUrl (version : Nat) : String :=
  pathJoin (pathJoin REPO_URL "tables") s!"Schaefer2018_{version}Parcels_7Networks.csv"

/-- URL of the Tian label image (identical in both source files). -/
def tianParcUrl (version resolution : Nat) : String :=
  pathJoin (pathJoin REPO_URL "parcellations")
    s!"Tian_Subcortex_S{version}_3T_{resolution}mm.nii.gz"

/-- URL of the Tian label table (identical in both source files). -/
def tianTableUrl (version : Nat) : String :=
  pathJoin (pathJoin REPO_URL "tables") s!"Tian_Subcortex_S{version}_3T_label.csv"

/-- URL of the Diedrichsen label image (identical in both source files). -/
def diedrichsenParcUrl (resolution : Nat) : String :=
  pathJoin (pathJoin REPO_URL "parcellations")
    s!"Diedrichsen_space-MNI_dseg_{resolution}mm.nii.gz"

/-- URL of the Diedrichsen label table (identical in both source files). -/
def diedrichsenTableUrl : String :=
  pathJoin (pathJoin REPO_URL "tables") "Diedrichsen.csv"

/-- URL of the Buckner label image (identical in both source files). -/
def bucknerParcUrl (resolution : Nat) : String :=
  pathJoin (pathJoin REPO_URL "parcellations")
    s!"Buckner7_space-MNI_dseg_{resolution}mm.nii.gz"

/-- URL of the Buckner label table (identical in both source files). -/
def bucknerTableUrl : String :=
  pathJoin (pathJoin REPO_URL "tables") "Buckner7.csv"

/-- `range(100, 1100, 100)` — the Schaefer granularities, in loop order. -/
def schaeferVersions : List Nat := [100, 200, 300, 400, 500, 600, 700, 800, 900, 1000]

/-- `range(1, 4)` — the Tian versions, in loop order. -/
def tianVersions : List Nat := [1, 2, 3]

/-- Sequencing of the catalog loops of `get_parcellations` / `fetch_parcellations`:
each fetch runs on the state left by the previous one, its tuple is appended to the
result list, and a Python exception aborts the loop — the state at the moment of the
exception persists, and no partial list is returned to the caller. -/
def runFetches (fns : List (FS → FS × Except PyError Parc)) (fs : FS) :
    FS × Except PyError (List Parc) :=
  match fns with
  | [] => (fs, Except.ok [])
  | f :: rest =>
    match f fs with
    | (fs1, Except.error e) => (fs1, Except.error e)
    | (fs1, Except.ok p) =>
      match runFetches rest fs1 with
      | (fs2, Except.error e) => (fs2, Except.error e)
      | (fs2, Except.ok ps) => (fs2, Except.ok (p :: ps))

/-- The shared shape of every `fetch_*` function in both source files: download the
label image, then the label table (each with its own `download_dir` / `overwrite`
arguments, since the parcpak variants do not forward them uniformly), and return
the tuple `(name, label image path, label table path)`. A Python exception in
either download propagates and no tuple is produced. -/
def fetchPair (name url1 url2 : String) (d1 : DirArg) (o1 : Bool) (d2 : DirArg)
    (o2 : Bool) (fs : FS) : FS × Except PyError Parc :=
  match download_file url1 d1 o1 fs with
  | (fs1, Except.error e) => (fs1, Except.error e)
  | (fs1, Except.ok parc) =>
    match download_file url2 d2 o2 fs1 with
    | (fs2, Except.error e) => (fs2, Except.error e)
    | (fs2, Except.ok table) =>
      (fs2, Except.ok { name := name, parc := parc, table := table })

namespace parcpack

/-- `fetch_schaefer(version, resolution)` from src/parcpack/main.py: both downloads
pass only the URL, so `download_dir=None` and `overwrite=False`. -/
def fetch_schaefer (version resolution : Nat) (fs : FS) : FS × Except PyError Parc :=
  fetchPair s!"Schaefer{version}_7Networks" (schaeferParcUrl version resolution)
    (schaeferTableUrl version) DirArg.none false DirArg.none false fs

/-- `fetch_diedrichsen(resolution)` from src/parcpack/main.py. -/
def fetch_diedrichsen (resolution : Nat) (fs : FS) : FS × Except PyError Parc :=
  fetchPair "Diedrichsen" (diedrichsenParcUrl resolution) diedrichsenTableUrl
    DirArg.none false DirArg.none false fs

/-- `fetch_buckner(resolution)` from src/parcpack/main.py. -/
def fetch_buckner (resolution : Nat) (fs : FS) : FS × Except PyError Parc :=
  fetchPair "Buckner7" (bucknerParcUrl resolution) bucknerTableUrl
    DirArg.none false DirArg.none false fs

/-- `fetch_tian(version, resolution)` from src/parcpack/main.py. -/
def fetch_tian (version resolution : Nat) (fs : FS) : FS × Except PyError Parc :=
  fetchPair s!"Tian_Subcortex_S{version}" (tianParcUrl version resolution)
    (tianTableUrl version) DirArg.none false DirArg.none false fs

/-- The fixed catalog of `fetch_parcellations`, in loop order: Schaefer 100..1000
step 100, then Tian 1..3, then Diedrichsen, then Buckner. -/
def catalogFns (resolution : Nat) : List (FS → FS × Except PyError Parc) :=
  (schaeferVersions.map (fun v => fetch_schaefer v resolution)) ++
  (tianVersions.map (fun v => fetch_tian v resolution)) ++
  [fetch_diedrichsen resolution, fetch_buckner resolution]

/-- `fetch_parcellations(resolution)` from src/parcpack/main.py. -/
def fetch_parcellations (resolution : Nat) (fs : FS) : FS × Except PyError (List Parc) :=
  runFetches (catalogFns resolution) fs

end parcpack

namespace parcpak

/-- `fetch_schaefer(version, resolution, download_dir, overwrite)` from
src/parcpak/main.py: both downloads receive `download_dir` and `overwrite`. -/
def fetch_schaefer (version resolution : Nat) (download_dir : DirArg)
    (overwrite : Bool) (fs : FS) : FS × Except PyError Parc :=
  fetchPair s!"Schaefer{version}_7Networks" (schaeferParcUrl version resolution)
    (schaeferTableUrl version) download_dir overwrite download_dir overwrite fs

/-- `fetch_diedrichsen(resolution, download_dir, overwrite)` from src/parcpak/main.py.
The label image download receives `download_dir` and `overwrite`, but the label
table is fetched as `_download_file(url)` — with the default directory and
`overwrite=False` — exactly as in the source (line 117). -/
def fetch_diedrichsen (resolution : Nat) (download_dir : DirArg) (overwrite : Bool)
    (fs : FS) : FS × Except PyError Parc :=
  fetchPair "Diedrichsen" (diedrichsenParcUrl resolution) diedrichsenTableUrl
    download_dir overwrite DirArg.none false fs

/-- `fetch_buckner(resolution, download_dir, overwrite)` from src/parcpak/main.py.
As with `fetch_diedrichsen`, the table is fetched as `_download_file(url)` with
defaults (line 150). -/
def fetch_buckner (resolution : Nat) (download_dir : DirArg) (overwrite : Bool)
    (fs : FS) : FS × Except PyError Parc :=
  fetchPair "Buckner7" (bucknerParcUrl resolution) bucknerTableUrl
    download_dir overwrite DirArg.none false fs

/-- `fetch_tian(version, resolution, download_dir, overwrite)` from src/parcpak/main.py. -/
def fetch_tian (version resolution : Nat) (download_dir : DirArg) (overwrite : Bool)
    (fs : FS) : FS × Except PyError Parc :=
  fetchPair s!"Tian_Subcortex_S{version}" (tianParcUrl version resolution)
    (tianTableUrl version) download_dir overwrite download_dir overwrite fs

/-- The fixed catalog of `get_parcellations`, in loop order. The source calls
`fetch_schaefer(i, resolution, overwrite)` (and likewise for the other fetchers):
the third positional argument of every fetcher is `download_dir`, so `overwrite`
is bound to `download_dir` as a `bool`, and the fetchers' own `overwrite`
parameters keep their default `False`. -/
def catalogFns (resolution : Nat) (overwrite : Bool) :
    List (FS → FS × Except PyError Parc) :=
  (schaeferVersions.map (fun v => fetch_schaefer v resolution (DirArg.bool overwrite) false)) ++
  (tianVersions.map (fun v => fetch_tian v resolution (DirArg.bool overwrite) false)) ++
  [fetch_diedrichsen resolution (DirArg.bool overwrite) false,
    fetch_buckner resolution (DirArg.bool overwrite) false]

/-- `get_parcellations(resolution, overwrite)` from src/parcpak/main.py. -/
def get_parcellations (resolution : Nat) (overwrite : Bool) (fs : FS) :
    FS × Except PyError (List Parc) :=
  runFetches (catalogFns resolution overwrite) fs

end parcpak

/-- The strategies accepted by nilearn's `NiftiLabelsMasker` — the set the
`img2table` docstring lists for `metric`. -/
def available_reduction_strategies : List String :=
  ["sum", "mean", "median", "minimum", "maximum", "variance", "standard_deviation"]

/-- The external collaborators of `img2table`, abstracted as deterministic
functions: `fit_transform labels_img strategy img` is the flattened output of
`NiftiLabelsMasker(labels_img, strategy=metric).fit_transform(img).ravel()`, and
`csvLabel path` is the "Label" column of `pd.read_csv(path)`. -/
structure Env where
  fit_transform : String → String → String → List Rat
  csvLabel : String → List String

/-- One output row: the columns "Parcellation", "Region", "Value". -/
structure RegionRow where
  Parcellation : String
  Region : String
  Value : Rat
deriving DecidableEq

/-- Error message of pandas' length check when building a DataFrame from a dict
containing a Series and an array of different lengths. -/
def dfLenMsg : String := "array length does not match index length"

/-- Modelled from the spec and the pandas documentation: `pd.DataFrame({...})`
with a scalar (`Parcellation`), a Series (`Region`) and an array (`Value`)
broadcasts the scalar, and raises `ValueError` when the array's length differs
from the Series index length — there is no silent truncation. -/
def mkDataFrame (name : String) (labels : List String) (data : List Rat) :
    Except PyError (List RegionRow) :=
  if labels.length = data.length then
    Except.ok ((labels.zip data).map
      (fun r => { Parcellation := name, Region := r.1, Value := r.2 }))
  else
    Except.error (PyError.valueError dfLenMsg)

/-- Modelled from the spec: the external masking routine is handed `metric`
verbatim and rejects a strategy outside `available_reduction_strategies` with an
InvalidArgument-style error; for a supported strategy it returns one value per
labeled region. -/
def maskerReduce (env : Env) (labels_img strategy img : String) :
    Except PyError (List Rat) :=
  if available_reduction_strategies.contains strategy then
    Except.ok (env.fit_transform labels_img strategy img)
  else
    Except.error (PyError.invalidArgument s!"Invalid strategy: {strategy}")

namespace parcpak

/-- The body of the per-parcellation loop of `img2table` (src/parcpak/main.py,
lines 240-249): build the masker over the label image with `strategy=metric`,
apply it to the volume, read the label table, and assemble the per-atlas frame. -/
def img2tableBody (env : Env) (img metric : String) (p : Parc) :
    Except PyError (List RegionRow) :=
  match maskerReduce env p.parc metric img with
  | Except.error e => Except.error e
  | Except.ok data => mkDataFrame p.name (env.csvLabel p.table) data

/-- The per-parcellation loop of `img2table` followed by `pd.concat`: frames are
concatenated in catalog order; an exception in any iteration aborts the loop. -/
def img2tableLoop (env : Env) (img metric : String) :
    List Parc → Except PyError (List RegionRow)
  | [] => Except.ok []
  | p :: rest =>
    match img2tableBody env img metric p with
    | Except.error e => Except.error e
    | Except.ok rows =>
      match img2tableLoop env img metric rest with
      | Except.error e => Except.error e
      | Except.ok more => Except.ok (rows ++ more)

/-- `img2table(img, metric)` from src/parcpak/main.py: first
`parcs = get_parcellations()` — with both defaults, `resolution=2` and
`overwrite=False` — then the per-parcellation loop and `pd.concat`. -/
def img2table (env : Env) (img metric : String) (fs : FS) :
    FS × Except PyError (List RegionRow) :=
  match get_parcellations 2 false fs with
  | (fs1, Except.error e) => (fs1, Except.error e)
  | (fs1, Except.ok parcs) =>
    match img2tableLoop env img metric parcs with
    | Except.error e => (fs1, Except.error e)
    | Except.ok rows => (fs1, Except.ok rows)

end parcpak

/-! Concrete fixtures and property abbreviations used by the theorems below. -/

/-- A fresh environment: empty cache, no failing URLs, nothing transferred yet. -/
def fs0 : FS := { home := "/home/user", files := [], failing := [], transfers := [] }

/-- A cache in which the Diedrichsen label table is already present at its default
target path `<home>/parcpak_data/Diedrichsen.csv`. -/
def fsD : FS :=
  { home := "/home/user",
    files := ["/home/user/parcpak_data/Diedrichsen.csv"],
    failing := [], transfers := [] }

/-- A fresh environment in which retrieving the first catalog URL (the Schaefer-100
2mm label image) fails with a network error. -/
def fsF : FS :=
  { home := "/home/user", files := [], failing := [schaeferParcUrl 100 2],
    transfers := [] }

/-- The catalog produced by `parcpack.fetch_parcellations` at resolution 2 from a
fresh environment. -/
def parcpackCatalog2 : List Parc :=
  match (parcpack.fetch_parcellations 2 fs0).2 with
  | Except.ok l => l
  | Except.error _ => []

/-- The parcellation names of the fixed catalog, in catalog order. -/
def catalogNames : List String :=
  (schaeferVersions.map (fun v => s!"Schaefer{v}_7Networks")) ++
  (tianVersions.map (fun v => s!"Tian_Subcortex_S{v}")) ++
  ["Diedrichsen", "Buckner7"]

/-- How many of the given names are Schaefer parcellations. -/
def countSchaefer (ns : List String) : Nat :=
  (ns.filter (fun n => List.isPrefixOf "Schaefer".data n.data)).length

/-- An external environment whose masker output is empty and whose label tables are
empty — adequate wherever `img2table` never reaches the masker. -/
def env0 : Env := { fit_transform := fun _ _ _ => [], csvLabel := fun _ => [] }

/-- A mismatched external environment: every label table has three rows
["A", "B", "C"] while the masker returns only two values. -/
def envMis : Env :=
  { fit_transform := fun _ _ _ => [1, 2], csvLabel := fun _ => ["A", "B", "C"] }

/-- A concrete parcellation tuple for exercising the reducer loop body directly. -/
def parc0 : Parc := { name := "T", parc := "/tmp/t.nii.gz", table := "/tmp/t.csv" }

/-- Whether a result is an InvalidArgument-style failure. -/
def isInvalidArgumentError {α : Type} : Except PyError α → Bool
  | Except.error (PyError.invalidArgument _) => true
  | _ => false

/-- The fetcher `f` can fail only with a transfer error (carrying the URL). -/
def OnlyTransferErrors (f : FS → FS × Except PyError Parc) : Prop :=
  ∀ (fs : FS) (e : PyError), (f fs).2 = Except.error e →
    ∃ u, e = PyError.transferError u

/-- Whenever the fetcher `f` returns a tuple, that tuple's name is `n`. -/
def FetchesName (f : FS → FS × Except PyError Parc) (n : String) : Prop :=
  ∀ (fs : FS) (p : Parc), (f fs).2 = Except.ok p → p.name = n

/-! Helper lemmas about the sequencing combinator `runFetches`. -/

theorem runFetches_ok_length (fns : List (FS → FS × Except PyError Parc)) :
    ∀ (fs : FS) (l : List Parc),
      (runFetches fns fs).2 = Except.ok l → l.length = fns.length := by
  induction fns with
  | nil =>
    intro fs l h
    simp only [runFetches] at h
    simp at h
    simp [← h]
  | cons f rest ih =>
    intro fs l h
    simp only [runFetches] at h
    rcases hfs : f fs with ⟨fs1, r1⟩
    rw [hfs] at h
    cases r1 with
    | error e => simp at h
    | ok p =>
      dsimp only at h
      rcases hrest : runFetches rest fs1 with ⟨fs2, r2⟩
      rw [hrest] at h
      cases r2 with
      | error e => simp at h
      | ok ps =>
        simp at h
        subst h
        simp [ih fs1 ps (by rw [hrest])]

theorem runFetches_error_mem (fns : List (FS → FS × Except PyError Parc)) :
    ∀ (fs : FS) (e : PyError), (runFetches fns fs).2 = Except.error e →
      ∃ f, f ∈ fns ∧ ∃ fs', (f fs').2 = Except.error e := by
  induction fns with
  | nil =>
    intro fs e h
    simp [runFetches] at h
  | cons f rest ih =>
    intro fs e h
    simp only [runFetches] at h
    rcases hfs : f fs with ⟨fs1, r1⟩
    rw [hfs] at h
    cases r1 with
    | error e1 =>
      simp at h
      subst h
      exact ⟨f, List.mem_cons_self f rest, fs, by rw [hfs]⟩
    | ok p =>
      dsimp only at h
      rcases hrest : runFetches rest fs1 with ⟨fs2, r2⟩
      rw [hrest] at h
      cases r2 with
      | error e2 =>
        simp at h
        subst h
        obtain ⟨g, hg, fs', h'⟩ := ih fs1 e2 (by rw [hrest])
        exact ⟨g, List.mem_cons_of_mem f hg, fs', h'⟩
      | ok ps => simp at h

theorem runFetches_names {fns : List (FS → FS × Except PyError Parc)}
    {ns : List String} (h : List.Forall₂ FetchesName fns ns) :
    ∀ (fs : FS) (l : List Parc),
      (runFetches fns fs).2 = Except.ok l → l.map Parc.name = ns := by
  induction h with
  | nil =>
    intro fs l hl
    simp only [runFetches] at hl
    simp at hl
    simp [← hl]
  | @cons f n fns' ns' hf hrest ih =>
    intro fs l hl
    simp only [runFetches] at hl
    rcases hfs : f fs with ⟨fs1, r1⟩
    rw [hfs] at hl
    cases r1 with
    | error e => simp at hl
    | ok p =>
      dsimp only at hl
      rcases hr : runFetches fns' fs1 with ⟨fs2, r2⟩
      rw [hr] at hl
      cases r2 with
      | error e => simp at hl
      | ok ps =>
        simp at hl
        subst hl
        simp [hf fs p (by rw [hfs]), ih fs1 ps (by rw [hr])]

/-! Helper lemmas about `downloadCore` / `download_file`. -/

theorem downloadCore_error (dir url : String) (ow : Bool) (fs : FS) (e : PyError)
    (h : (downloadCore dir url ow fs).2 = Except.error e) :
    e = PyError.transferError url := by
  simp only [downloadCore] at h
  split at h
  · split at h
    · simp at h
      exact h.symm
    · simp at h
  · simp at h

theorem download_file_none_error (url : String) (ow : Bool) (fs : FS) (e : PyError)
    (h : (download_file url DirArg.none ow fs).2 = Except.error e) :
    e = PyError.transferError url :=
  downloadCore_error _ _ _ _ _ h

theorem download_file_str_error (url s : String) (ow : Bool) (fs : FS) (e : PyError)
    (h : (download_file url (DirArg.str s) ow fs).2 = Except.error e) :
    e = PyError.transferError url :=
  downloadCore_error _ _ _ _ _ h

theorem downloadCore_home (dir url : String) (ow : Bool) (fs : FS) :
    (downloadCore dir url ow fs).1.home = fs.home := by
  simp only [downloadCore]
  split
  · split <;> rfl
  · rfl

theorem downloadCore_idem (dir url : String) (fs : FS) :
    downloadCore dir url false (downloadCore dir url false fs).1 =
      downloadCore dir url false fs := by
  by_cases h1 : targetPath dir url ∈ fs.files
  · simp [downloadCore, h1]
  · by_cases h2 : url ∈ fs.failing
    · simp [downloadCore, h1, h2]
    · simp [downloadCore, h1, h2]

theorem downloadCore_ok (dir url : String) (ow : Bool) (fs : FS)
    (h : url ∉ fs.failing) :
    (downloadCore dir url ow fs).2 = Except.ok (targetPath dir url) ∧
      targetPath dir url ∈ (downloadCore dir url ow fs).1.files := by
  by_cases h1 : targetPath dir url ∈ fs.files
  · cases ow <;> simp [downloadCore, h1, h]
  · cases ow <;> simp [downloadCore, h1, h]

theorem download_file_idem (url : String) (d : DirArg) (fs : FS) :
    download_file url d false (download_file url d false fs).1 =
      download_file url d false fs := by
  cases d with
  | none =>
    show downloadCore
        (PARCPAK_DIR ((downloadCore (PARCPAK_DIR fs.home) url false fs).1.home))
        url false ((downloadCore (PARCPAK_DIR fs.home) url false fs).1) =
      downloadCore (PARCPAK_DIR fs.home) url false fs
    rw [downloadCore_home]
    exact downloadCore_idem _ _ _
  | str s => exact downloadCore_idem _ _ _
  | bool b => rfl

/-! Helper lemmas about `fetchPair` and the parcpack catalog. -/

theorem fetchPair_name (n u1 u2 : String) (d1 : DirArg) (o1 : Bool) (d2 : DirArg)
    (o2 : Bool) : FetchesName (fetchPair n u1 u2 d1 o1 d2 o2) n := by
  intro fs p h
  simp only [fetchPair] at h
  rcases h1 : download_file u1 d1 o1 fs with ⟨fs1, r1⟩
  rw [h1] at h
  cases r1 with
  | error e => simp at h
  | ok parc =>
    dsimp only at h
    rcases h2 : download_file u2 d2 o2 fs1 with ⟨fs2, r2⟩
    rw [h2] at h
    cases r2 with
    | error e => simp at h
    | ok table =>
      simp at h
      rw [← h]

theorem fetchPair_errors (n u1 u2 : String) (d1 : DirArg) (o1 : Bool) (d2 : DirArg)
    (o2 : Bool) (hn1 : ∀ b, d1 ≠ DirArg.bool b) (hn2 : ∀ b, d2 ≠ DirArg.bool b) :
    OnlyTransferErrors (fetchPair n u1 u2 d1 o1 d2 o2) := by
  intro fs e h
  simp only [fetchPair] at h
  rcases h1 : download_file u1 d1 o1 fs with ⟨fs1, r1⟩
  rw [h1] at h
  cases r1 with
  | error e1 =>
    simp at h
    subst h
    cases d1 with
    | none => exact ⟨u1, download_file_none_error _ _ _ _ (by rw [h1])⟩
    | str s => exact ⟨u1, download_file_str_error _ _ _ _ _ (by rw [h1])⟩
    | bool b => exact absurd rfl (hn1 b)
  | ok parc =>
    dsimp only at h
    rcases h2 : download_file u2 d2 o2 fs1 with ⟨fs2, r2⟩
    rw [h2] at h
    cases r2 with
    | error e2 =>
      simp at h
      subst h
      cases d2 with
      | none => exact ⟨u2, download_file_none_error _ _ _ _ (by rw [h2])⟩
      | str s => exact ⟨u2, download_file_str_error _ _ _ _ _ (by rw [h2])⟩
      | bool b => exact absurd rfl (hn2 b)
    | ok table => simp at h

theorem parcpack_fetch_schaefer_errors (v res : Nat) :
    OnlyTransferErrors (parcpack.fetch_schaefer v res) :=
  fetchPair_errors _ _ _ _ _ _ _ (fun _ h => DirArg.noConfusion h)
    (fun _ h => DirArg.noConfusion h)

theorem parcpack_fetch_tian_errors (v res : Nat) :
    OnlyTransferErrors (parcpack.fetch_tian v res) :=
  fetchPair_errors _ _ _ _ _ _ _ (fun _ h => DirArg.noConfusion h)
    (fun _ h => DirArg.noConfusion h)

theorem parcpack_fetch_diedrichsen_errors (res : Nat) :
    OnlyTransferErrors (parcpack.fetch_diedrichsen res) :=
  fetchPair_errors _ _ _ _ _ _ _ (fun _ h => DirArg.noConfusion h)
    (fun _ h => DirArg.noConfusion h)

theorem parcpack_fetch_buckner_errors (res : Nat) :
    OnlyTransferErrors (parcpack.fetch_buckner res) :=
  fetchPair_errors _ _ _ _ _ _ _ (fun _ h => DirArg.noConfusion h)
    (fun _ h => DirArg.noConfusion h)

theorem parcpack_catalog_only_transfer (res : Nat) :
    ∀ f ∈ parcpack.catalogFns res, OnlyTransferErrors f := by
  unfold parcpack.catalogFns
  intro f hf
  rcases List.mem_append.mp hf with h | h
  · rcases List.mem_append.mp h with h2 | h2
    · obtain ⟨v, hv, rfl⟩ := List.mem_map.mp h2
      exact parcpack_fetch_schaefer_errors v res
    · obtain ⟨v, hv, rfl⟩ := List.mem_map.mp h2
      exact parcpack_fetch_tian_errors v res
  · rcases List.mem_cons.mp h with h3 | h3
    · rw [h3]
      exact parcpack_fetch_diedrichsen_errors res
    · rcases List.mem_cons.mp h3 with h4 | h4
      · rw [h4]
        exact parcpack_fetch_buckner_errors res
      · exact absurd h4 (List.not_mem_nil f)

theorem forall2_fetchesName_map {α : Type} (vs : List α)
    (F : α → FS → FS × Except PyError Parc) (G : α → String)
    (h : ∀ v, FetchesName (F v) (G v)) :
    List.Forall₂ FetchesName (vs.map F) (vs.map G) := by
  induction vs with
  | nil =>
    simp only [List.map_nil]
    exact List.Forall₂.nil
  | cons v rest ih =>
    simp only [List.map_cons]
    exact List.Forall₂.cons (h v) ih

theorem parcpack_catalog_names_rel (res : Nat) :
    List.Forall₂ FetchesName (parcpack.catalogFns res) catalogNames := by
  unfold parcpack.catalogFns catalogNames
  refine List.rel_append (List.rel_append ?_ ?_) ?_
  · exact forall2_fetchesName_map _ _ _ (fun v => fetchPair_name _ _ _ _ _ _ _)
  · exact forall2_fetchesName_map _ _ _ (fun v => fetchPair_name _ _ _ _ _ _ _)
  · exact List.Forall₂.cons (fetchPair_name _ _ _ _ _ _ _)
      (List.Forall₂.cons (fetchPair_name _ _ _ _ _ _ _) List.Forall₂.nil)

theorem parcpack_ok_names (res : Nat) (fs : FS) (l : List Parc)
    (h : (parcpack.fetch_parcellations res fs).2 = Except.ok l) :
    l.map Parc.name = catalogNames :=
  runFetches_names (parcpack_catalog_names_rel res) fs l h

theorem parcpack_ok_length (res : Nat) (fs : FS) (l : List Parc)
    (h : (parcpack.fetch_parcellations res fs).2 = Except.ok l) :
    l.length = 15 :=
  (runFetches_ok_length _ fs l h).trans (by rfl)

theorem parcpack_error_transfer (res : Nat) (fs : FS) (e : PyError)
    (h : (parcpack.fetch_parcellations res fs).2 = Except.error e) :
    ∃ u, e = PyError.transferError u := by
  obtain ⟨f, hf, fs', h'⟩ := runFetches_error_mem _ fs e h
  exact parcpack_catalog_only_transfer res f hf fs' e h'

theorem downloadCore_fail (dir url : String) (ow : Bool) (fs : FS)
    (h1 : url ∈ fs.failing) (h2 : targetPath dir url ∉ fs.files) :
    downloadCore dir url ow fs = (fs, Except.error (PyError.transferError url)) := by
  cases ow <;> simp [downloadCore, h1, h2]

/-! Helper lemmas about the per-atlas reduction loop of `img2table`. -/

theorem img2tableLoop_aborts (env : Env) (img metric : String) :
    ∀ (parcs : List Parc) (p : Parc) (e : PyError), p ∈ parcs →
      parcpak.img2tableBody env img metric p = Except.error e →
      ∃ e2, parcpak.img2tableLoop env img metric parcs = Except.error e2 := by
  intro parcs
  induction parcs with
  | nil =>
    intro p e hp _
    exact absurd hp (List.not_mem_nil p)
  | cons q rest ih =>
    intro p e hp hb
    simp only [parcpak.img2tableLoop]
    rcases hq : parcpak.img2tableBody env img metric q with eb | rs1
    · exact ⟨eb, rfl⟩
    · rcases List.mem_cons.mp hp with hpq | hrest
      · subst hpq
        rw [hb] at hq
        simp at hq
      · obtain ⟨e2, hl⟩ := ih p e hrest hb
        simp only [hl]
        exact ⟨e2, rfl⟩

theorem img2tableLoop_error_mem (env : Env) (img metric : String) :
    ∀ (parcs : List Parc) (e : PyError),
      parcpak.img2tableLoop env img metric parcs = Except.error e →
      ∃ p ∈ parcs, parcpak.img2tableBody env img metric p = Except.error e := by
  intro parcs
  induction parcs with
  | nil =>
    intro e h
    simp [parcpak.img2tableLoop] at h
  | cons q rest ih =>
    intro e h
    simp only [parcpak.img2tableLoop] at h
    rcases hb : parcpak.img2tableBody env img metric q with eb | rs1
    · rw [hb] at h
      dsimp only at h
      simp at h
      subst h
      exact ⟨q, List.mem_cons_self q rest, hb⟩
    · rw [hb] at h
      dsimp only at h
      rcases hl : parcpak.img2tableLoop env img metric rest with el | more
      · rw [hl] at h
        dsimp only at h
        simp at h
        subst h
        obtain ⟨p, hp, hbp⟩ := ih el hl
        exact ⟨p, List.mem_cons_of_mem q hp, hbp⟩
      · rw [hl] at h
        simp at h

theorem img2tableLoop_ok_all (env : Env) (img metric : String) :
    ∀ (parcs : List Parc) (rows : List RegionRow),
      parcpak.img2tableLoop env img metric parcs = Except.ok rows →
      ∀ p ∈ parcs, ∃ rs, parcpak.img2tableBody env img metric p = Except.ok rs := by
  intro parcs
  induction parcs with
  | nil =>
    intro rows _ p hp
    exact absurd hp (List.not_mem_nil p)
  | cons q rest ih =>
    intro rows h p hp
    simp only [parcpak.img2tableLoop] at h
    rcases hb : parcpak.img2tableBody env img metric q with eb | rs1
    · rw [hb] at h
      simp at h
    · rw [hb] at h
      dsimp only at h
      rcases hl : parcpak.img2tableLoop env img metric rest with el | more
      · rw [hl] at h
        simp at h
      · rcases List.mem_cons.mp hp with hpq | hrest
        · subst hpq
          exact ⟨rs1, hb⟩
        · exact ih more hl p hrest

/-! The claims. -/

/-- C1 (counterexample): the fixed catalog does not hold 9 Schaefer entries —
resolution-2 resolution of the catalog yields 15 entries of which 10 are
Schaefer parcellations; and parcpak's `get_parcellations` does not return the
catalog at all: it raises `TypeError` (overwrite is passed positionally into the
`download_dir` slot of every fetcher). -/
theorem c1_counterexample :
    countSchaefer (parcpackCatalog2.map Parc.name) = 10 ∧
      parcpackCatalog2.length = 15 ∧
      parcpak.get_parcellations 2 false fs0 = (fs0, Except.error boolDirError) :=
  ⟨rfl, rfl, rfl⟩

/-- C1 (amended claim, proved): whenever `parcpack.fetch_parcellations` returns a
catalog it has exactly 15 entries — 10 Schaefer (granularities 100..1000 in steps
of 100) + 3 Tian + 1 Diedrichsen + 1 Buckner — with the fixed names in the fixed
order, for every resolution; while `parcpak.get_parcellations` raises `TypeError`
for every resolution, overwrite argument and cache state, leaving the state
untouched. -/
theorem c1_catalog :
    (∀ (resolution : Nat) (fs : FS) (l : List Parc),
        (parcpack.fetch_parcellations resolution fs).2 = Except.ok l →
          l.map Parc.name = catalogNames ∧ l.length = 15) ∧
      catalogNames =
        ["Schaefer100_7Networks", "Schaefer200_7Networks", "Schaefer300_7Networks",
          "Schaefer400_7Networks", "Schaefer500_7Networks", "Schaefer600_7Networks",
          "Schaefer700_7Networks", "Schaefer800_7Networks", "Schaefer900_7Networks",
          "Schaefer1000_7Networks", "Tian_Subcortex_S1", "Tian_Subcortex_S2",
          "Tian_Subcortex_S3", "Diedrichsen", "Buckner7"] ∧
      (∀ (resolution : Nat) (overwrite : Bool) (fs : FS),
        parcpak.get_parcellations resolution overwrite fs =
          (fs, Except.error boolDirError)) :=
  ⟨fun res fs l h => ⟨parcpack_ok_names res fs l h, parcpack_ok_length res fs l h⟩,
    rfl, fun _ _ _ => rfl⟩

/-- C1 witness: the amended catalog theorem applied to the concrete resolution-2
run from a fresh environment. -/
theorem c1_catalog_witness :
    parcpackCatalog2.map Parc.name = catalogNames ∧ parcpackCatalog2.length = 15 :=
  c1_catalog.1 2 fs0 parcpackCatalog2 rfl

/-- C2 (code bug): `img2table` never returns a table for any volume, metric,
external environment or cache state — the initial `get_parcellations()` call
raises `TypeError` (the overwrite-into-download_dir slip), so not a single row
is produced, whereas the claim promises a table with one row per region. -/
theorem c2_img2table_raises (env : Env) (img metric : String) (fs : FS) :
    parcpak.img2table env img metric fs = (fs, Except.error boolDirError) := rfl

/-- C3 (code bug, with the true core proved): re-running `_download_file` with
`overwrite=False` is a filesystem no-op — the second call returns exactly the
first call's state and result, so once a target exists no further transfer
happens; a second `parcpack.fetch_parcellations` run is likewise a no-op, and
the first run from a fresh cache performs exactly one transfer per file (30
pairwise distinct transfers for the 15 atlases); but `parcpak.get_parcellations`
never reaches a transfer: it raises `TypeError` with the cache untouched. -/
theorem c3_idempotence :
    (∀ (url : String) (d : DirArg) (fs : FS),
        download_file url d false (download_file url d false fs).1 =
          download_file url d false fs) ∧
      parcpack.fetch_parcellations 2 (parcpack.fetch_parcellations 2 fs0).1 =
        parcpack.fetch_parcellations 2 fs0 ∧
      (parcpack.fetch_parcellations 2 fs0).1.transfers.length = 30 ∧
      (parcpack.fetch_parcellations 2 fs0).1.transfers.Nodup ∧
      parcpak.get_parcellations 2 false fs0 = (fs0, Except.error boolDirError) :=
  ⟨download_file_idem, rfl, rfl, by decide, rfl⟩

/-- C4 (code bug): with the Diedrichsen label table already cached at its default
path, `fetch_diedrichsen` with `overwrite=True` re-transfers only the label image
— the table is fetched via `_download_file(url)` with all defaults, so it is
never re-transferred; and `get_parcellations(·, overwrite=True)` transfers
nothing at all, raising `TypeError` instead. -/
theorem c4_overwrite_ignored_for_tables :
    (parcpak.fetch_diedrichsen 2 (DirArg.str "/cache") true fsD).1.transfers =
        [diedrichsenParcUrl 2] ∧
      ((parcpak.fetch_diedrichsen 2 (DirArg.str "/cache") true fsD).1.transfers.contains
          diedrichsenTableUrl) = false ∧
      (∀ (resolution : Nat) (fs : FS),
        parcpak.get_parcellations resolution true fs =
          (fs, Except.error boolDirError)) :=
  ⟨rfl, by decide, fun _ _ => rfl⟩

/-- C5 (counterexample): with the unsupported metric "bogus", `img2table` does
fail before any download attempt, but with the `TypeError` propagated from
`get_parcellations` — not with an InvalidArgument error; the metric is never
inspected. -/
theorem c5_counterexample :
    parcpak.img2table env0 "vol.nii.gz" "bogus" fs0 =
        (fs0, Except.error boolDirError) ∧
      isInvalidArgumentError
          (parcpak.img2table env0 "vol.nii.gz" "bogus" fs0).2 = false :=
  ⟨rfl, rfl⟩

/-- C5 (amended claim, proved): for every metric outside the supported set,
`img2table` fails before any download attempt — the state, transfer log
included, is returned unchanged — but the failure is the `TypeError` from
`get_parcellations`, not an InvalidArgument error: `img2table` itself never
validates the metric, and the external masker that would is only constructed
after the catalog fetch. -/
theorem c5_no_metric_validation (env : Env) (img metric : String) (fs : FS)
    (h : available_reduction_strategies.contains metric = false) :
    parcpak.img2table env img metric fs = (fs, Except.error boolDirError) ∧
      isInvalidArgumentError (parcpak.img2table env img metric fs).2 = false :=
  ⟨rfl, rfl⟩

/-- C5 witness: the amended theorem applied at the unsupported metric "bogus". -/
theorem c5_no_metric_validation_witness :
    parcpak.img2table env0 "volume.nii.gz" "bogus" fs0 =
        (fs0, Except.error boolDirError) ∧
      isInvalidArgumentError
          (parcpak.img2table env0 "volume.nii.gz" "bogus" fs0).2 = false :=
  c5_no_metric_validation env0 "volume.nii.gz" "bogus" fs0 (by decide)

/-- C6 (confirmed): `_download_file` stores and returns the deterministic target
path `cache_dir / basename(url)` whenever the URL is retrievable; with no
directory supplied it uses the fixed per-user default, which is exactly
`<home>/parcpak_data`; the local file name equals the remote basename. -/
theorem c6_deterministic_target :
    (∀ (url dir : String) (ow : Bool) (fs : FS), url ∉ fs.failing →
        (download_file url (DirArg.str dir) ow fs).2 =
            Except.ok (pathJoin dir (basename url)) ∧
          pathJoin dir (basename url) ∈
            (download_file url (DirArg.str dir) ow fs).1.files) ∧
      (∀ (url : String) (ow : Bool) (fs : FS), url ∉ fs.failing →
        (download_file url DirArg.none ow fs).2 =
          Except.ok (pathJoin (PARCPAK_DIR fs.home) (basename url))) ∧
      (∀ home : String, PARCPAK_DIR home = home ++ "/parcpak_data") :=
  ⟨fun url dir ow fs h => downloadCore_ok dir url ow fs h,
    fun url ow fs h => (downloadCore_ok (PARCPAK_DIR fs.home) url ow fs h).1,
    fun _ => rfl⟩

/-- C6 witness: the target-path theorem applied at a concrete URL, cache
directory and fresh cache state. -/
theorem c6_deterministic_target_witness :
    ((download_file "https://host/data/x.csv" (DirArg.str "/tmp") false fs0).2 =
        Except.ok (pathJoin "/tmp" (basename "https://host/data/x.csv")) ∧
      pathJoin "/tmp" (basename "https://host/data/x.csv") ∈
        (download_file "https://host/data/x.csv" (DirArg.str "/tmp") false fs0).1.files) ∧
      (download_file "https://host/data/x.csv" DirArg.none false fs0).2 =
        Except.ok (pathJoin (PARCPAK_DIR fs0.home) (basename "https://host/data/x.csv")) ∧
      PARCPAK_DIR "/home/user" = "/home/user" ++ "/parcpak_data" :=
  ⟨c6_deterministic_target.1 "https://host/data/x.csv" "/tmp" false fs0 (by decide),
    c6_deterministic_target.2.1 "https://host/data/x.csv" false fs0 (by decide),
    c6_deterministic_target.2.2 "/home/user"⟩

/-- C7 (counterexample): with a 3-row label table and a 2-value masker output,
the per-atlas frame construction raises `ValueError` — it does not silently
mis-align — and `img2table` itself returns an error (the earlier `TypeError`),
not a table. -/
theorem c7_counterexample :
    parcpak.img2tableBody envMis "vol.nii.gz" "mean" parc0 =
        Except.error (PyError.valueError dfLenMsg) ∧
      parcpak.img2table envMis "vol.nii.gz" "mean" fs0 =
        (fs0, Except.error boolDirError) :=
  ⟨rfl, rfl⟩

/-- C7 (amended claim, proved): a row-count mismatch between an atlas's label
table and its statistics output makes the frame construction raise `ValueError`
— the assembly aborts with an error rather than returning a mis-aligned table. -/
theorem c7_mismatch_raises (env : Env) (img metric : String) (p : Parc)
    (hm : available_reduction_strategies.contains metric = true)
    (hlen : (env.csvLabel p.table).length ≠
      (env.fit_transform p.parc metric img).length) :
    parcpak.img2tableBody env img metric p =
      Except.error (PyError.valueError dfLenMsg) := by
  simp only [parcpak.img2tableBody, maskerReduce, hm, if_true]
  simp only [mkDataFrame, if_neg hlen]

/-- C7 witness: the mismatch theorem applied at the concrete mismatched
environment. -/
theorem c7_mismatch_raises_witness :
    parcpak.img2tableBody envMis "v.nii" "mean" parc0 =
      Except.error (PyError.valueError dfLenMsg) :=
  c7_mismatch_raises envMis "v.nii" "mean" parc0 (by decide) (by decide)

/-- C8 (confirmed): no error is swallowed and no partial result escapes, on both
halves of the pipeline. Fetcher side: a successful `fetch_parcellations` always
carries the full 15-atlas catalog, a failed one surfaces a transfer error
carrying a URL for context, and a failing retrieval propagates its transfer
error out of `_download_file` with the state unchanged. Reducer side: a failure
in any per-atlas reduction aborts the whole reduction loop of `img2table` with
an error (no partial row list), every loop failure is a surfaced per-atlas
failure, a successful loop means every atlas's reduction succeeded, and the
`img2table` call itself always terminates with a propagated error in the current
code — it never returns any (hence never a partial) result table. -/
theorem c8_no_error_swallowed :
    (∀ (resolution : Nat) (fs : FS) (l : List Parc),
        (parcpack.fetch_parcellations resolution fs).2 = Except.ok l →
          l.length = 15) ∧
      (∀ (resolution : Nat) (fs : FS) (e : PyError),
        (parcpack.fetch_parcellations resolution fs).2 = Except.error e →
          ∃ u, e = PyError.transferError u) ∧
      (∀ (url dir : String) (ow : Bool) (fs : FS),
        url ∈ fs.failing → targetPath dir url ∉ fs.files →
          download_file url (DirArg.str dir) ow fs =
            (fs, Except.error (PyError.transferError url))) ∧
      (∀ (env : Env) (img metric : String) (parcs : List Parc) (p : Parc)
          (e : PyError), p ∈ parcs →
        parcpak.img2tableBody env img metric p = Except.error e →
          ∃ e2, parcpak.img2tableLoop env img metric parcs = Except.error e2) ∧
      (∀ (env : Env) (img metric : String) (parcs : List Parc) (e : PyError),
        parcpak.img2tableLoop env img metric parcs = Except.error e →
          ∃ p ∈ parcs, parcpak.img2tableBody env img metric p = Except.error e) ∧
      (∀ (env : Env) (img metric : String) (parcs : List Parc)
          (rows : List RegionRow),
        parcpak.img2tableLoop env img metric parcs = Except.ok rows →
          ∀ p ∈ parcs, ∃ rs,
            parcpak.img2tableBody env img metric p = Except.ok rs) ∧
      (∀ (env : Env) (img metric : String) (fs : FS),
        ∃ e, parcpak.img2table env img metric fs = (fs, Except.error e)) :=
  ⟨parcpack_ok_length, parcpack_error_transfer,
    fun url dir ow fs h1 h2 => downloadCore_fail dir url ow fs h1 h2,
    fun env img metric parcs p e hp hb =>
      img2tableLoop_aborts env img metric parcs p e hp hb,
    fun env img metric parcs e h => img2tableLoop_error_mem env img metric parcs e h,
    fun env img metric parcs rows h => img2tableLoop_ok_all env img metric parcs rows h,
    fun _ _ _ _ => ⟨boolDirError, rfl⟩⟩

/-- C8 witness: applied at the concrete environments `fs0` (everything succeeds:
full catalog), `fsF` (the first catalog URL fails: transfer error), the
mismatched reducer environment `envMis` (the per-atlas reduction of `parc0`
fails and aborts the loop), and the consistent reducer environment `env0` (the
loop succeeds and every per-atlas reduction succeeded). -/
theorem c8_no_error_swallowed_witness :
    parcpackCatalog2.length = 15 ∧
      (∃ u, PyError.transferError (schaeferParcUrl 100 2) =
        PyError.transferError u) ∧
      download_file (schaeferParcUrl 100 2) (DirArg.str "/tmp") false fsF =
        (fsF, Except.error (PyError.transferError (schaeferParcUrl 100 2))) ∧
      (∃ e2, parcpak.img2tableLoop envMis "w.nii" "mean" [parc0] =
        Except.error e2) ∧
      (∃ p ∈ [parc0], parcpak.img2tableBody envMis "w.nii" "mean" p =
        Except.error (PyError.valueError dfLenMsg)) ∧
      (∀ p ∈ [parc0], ∃ rs,
        parcpak.img2tableBody env0 "w.nii" "mean" p = Except.ok rs) ∧
      (∃ e, parcpak.img2table env0 "w.nii" "mean" fs0 =
        (fs0, Except.error e)) :=
  ⟨c8_no_error_swallowed.1 2 fs0 parcpackCatalog2 rfl,
    c8_no_error_swallowed.2.1 2 fsF
      (PyError.transferError (schaeferParcUrl 100 2)) rfl,
    c8_no_error_swallowed.2.2.1 (schaeferParcUrl 100 2) "/tmp" false fsF
      (by decide) (by decide),
    c8_no_error_swallowed.2.2.2.1 envMis "w.nii" "mean" [parc0] parc0
      (PyError.valueError dfLenMsg) (List.mem_cons_self parc0 []) rfl,
    c8_no_error_swallowed.2.2.2.2.1 envMis "w.nii" "mean" [parc0]
      (PyError.valueError dfLenMsg) rfl,
    c8_no_error_swallowed.2.2.2.2.2.1 env0 "w.nii" "mean" [parc0] [] rfl,
    c8_no_error_swallowed.2.2.2.2.2.2 env0 "w.nii" "mean" fs0⟩

/-- C9 (code bug): `img2table` takes no resolution or overwrite parameter and
invokes `get_parcellations` with its defaults (resolution 2, overwrite False);
its whole outcome is the outcome of that default call, independent of the
volume, the metric and the external environment. In the current code that
outcome is the `TypeError` from the argument slip, so no atlas — 2mm or
otherwise — is ever used. -/
theorem c9_img2table_defaults (env : Env) (img metric : String) (fs : FS) :
    ∃ e, parcpak.get_parcellations 2 false fs = (fs, Except.error e) ∧
      parcpak.img2table env img metric fs = (fs, Except.error e) :=
  ⟨boolDirError, rfl, rfl⟩

/-- C10 (code bug): the two fetcher variants are not equivalent: at resolution 2
from a fresh environment, parcpack's `fetch_parcellations` returns the 15 named
catalog entries in order, while parcpak's `get_parcellations` raises `TypeError`
and returns no list at all. -/
theorem c10_variants_diverge :
    (parcpack.fetch_parcellations 2 fs0).2 = Except.ok parcpackCatalog2 ∧
      parcpackCatalog2.map Parc.name =
        ["Schaefer100_7Networks", "Schaefer200_7Networks", "Schaefer300_7Networks",
          "Schaefer400_7Networks", "Schaefer500_7Networks", "Schaefer600_7Networks",
          "Schaefer700_7Networks", "Schaefer800_7Networks", "Schaefer900_7Networks",
          "Schaefer1000_7Networks", "Tian_Subcortex_S1", "Tian_Subcortex_S2",
          "Tian_Subcortex_S3", "Diedrichsen", "Buckner7"] ∧
      parcpak.get_parcellations 2 false fs0 = (fs0, Except.error boolDirError) :=
  ⟨rfl, rfl, rfl⟩
